import Mathlib

/-
  Verification of the Gymmando tool-augmented chat sessions.

  Shallow embedding of the four provider variants:
    - GymmandoYouTubeMCP.chat          (src/rnd/gymmando_youtube.py)
    - GymandoTavilySearch.search_with_mcp   (src/rnd/search/tavily_mcp.py)
    - GymandoOpenNutrition.query_with_mcp   (src/search/opennutrition_mcp.py)
    - GymandoSearch.search_with_mcp    (src/rnd/open_search_mcp.py)

  The hosted chat model is modelled as a finite script of responses consumed
  in order (an exhausted script is a model-service error), the tool-provider
  subprocess as a pure function from tool name and input to a result payload,
  and the observable side effects (subprocess launch and release, model
  calls, tool calls) as an explicit event trace.  The Python async-with
  blocks around the subprocess connection are embedded as a launch event on
  entry and a release event appended on every exit path, which is the
  semantics of the with-statement.
-/

namespace Gymmando

/-- A tool-invocation-request block produced by the model (anthropic
tool_use content block): identifier, tool name, structured input (the input
JSON is kept opaque as a string). -/
structure ToolUseBlock where
  id : String
  name : String
  input : String
  deriving Repr, DecidableEq

/-- A content block of a model response: a text block or a tool-use block.
Mirrors the duck-typed inspection in the Python sources (hasattr "text" /
type == "tool_use"). -/
inductive ContentBlock where
  | text (t : String)
  | toolUse (b : ToolUseBlock)
  deriving Repr, DecidableEq

/-- A model response: stop reason and content list. -/
structure Response where
  stop_reason : String
  content : List ContentBlock
  deriving Repr, DecidableEq

/-- Role of a transcript turn. -/
inductive Role where
  | user
  | assistant
  deriving Repr, DecidableEq

/-- A tool_result block sent back to the model. -/
structure ToolResultBlock where
  tool_use_id : String
  content : String
  deriving Repr, DecidableEq

/-- Payload of a transcript turn: a plain string (the initial user query),
the assistant response content, or a list of tool_result blocks. -/
inductive MessageContent where
  | plain (s : String)
  | blocks (bs : List ContentBlock)
  | toolResults (rs : List ToolResultBlock)
  deriving Repr, DecidableEq

/-- One transcript turn. -/
structure Message where
  role : Role
  content : MessageContent
  deriving Repr, DecidableEq

/-- Observable side effects of a session run. -/
inductive Event where
  | launch
  | modelCall
  | toolCall (name : String) (input : String)
  | release
  deriving Repr, DecidableEq

/-- Errors a run can raise: configuration errors (missing credential),
a missing local tool-server path, a failing model call (here: the response
script is exhausted), and the StopIteration raised by next() when a
tool_use response holds no tool_use block. -/
inductive RunError where
  | configError (msg : String)
  | fileNotFound (msg : String)
  | modelError
  | stopIteration
  deriving Repr, DecidableEq

/-- Python truthiness of an optional string: present and non-empty. -/
def truthy : Option String → Bool
  | none => false
  | some s => s != ""

/-- The tool_use blocks of a response content list, in order
(the Python list comprehension filtering on block.type == "tool_use"). -/
def toolUseBlocks (c : List ContentBlock) : List ToolUseBlock :=
  c.filterMap fun b =>
    match b with
    | ContentBlock.toolUse t => some t
    | ContentBlock.text _ => none

/-- The user-role turn wrapping one tool result, tagged with the request
block's identifier (the messages.append of a single tool_result dict). -/
def toolResultMsg (callTool : String → String → String) (b : ToolUseBlock) : Message :=
  ⟨Role.user, MessageContent.toolResults [⟨b.id, callTool b.name b.input⟩]⟩

/-- The assistant turn holding the full response content. -/
def assistantMsg (content : List ContentBlock) : Message :=
  ⟨Role.assistant, MessageContent.blocks content⟩

/-- YouTube variant, _extract_final_text: first block with a truthy text
attribute; empty string when none. -/
def extract_final_text : List ContentBlock → String
  | [] => ""
  | ContentBlock.text t :: rest => if t = "" then extract_final_text rest else t
  | ContentBlock.toolUse _ :: rest => extract_final_text rest

/-- Tavily / nutrition / web-search variants, final for-else extraction:
first block with a truthy text attribute; the sentinel when none. -/
def extractTavilyText : List ContentBlock → String
  | [] => "No text response found"
  | ContentBlock.text t :: rest => if t = "" then extractTavilyText rest else t
  | ContentBlock.toolUse _ :: rest => extractTavilyText rest

/-- Spec-side reference: the text of the first text block whose text is
non-empty, if any. -/
def firstNonEmptyText (c : List ContentBlock) : Option String :=
  (c.filterMap fun b =>
    match b with
    | ContentBlock.text t => if t = "" then none else some t
    | ContentBlock.toolUse _ => none).head?

/-- One toolCall event per dispatched request block. -/
def toolCallEvents (bs : List ToolUseBlock) : List Event :=
  bs.map fun b => Event.toolCall b.name b.input

/-- The turns appended by one iteration of the Tavily/nutrition dispatch
loop on a tool_use response: the assistant turn, then one user-role result
turn per tool_use block, in order. -/
def dispatchTurns (callTool : String → String → String) (resp : Response) : List Message :=
  assistantMsg resp.content :: (toolUseBlocks resp.content).map (toolResultMsg callTool)

/-- The transcript after one iteration of the Tavily/nutrition dispatch
loop on a tool_use response. -/
def dispatchStep (callTool : String → String → String) (resp : Response)
    (msgs : List Message) : List Message :=
  msgs ++ dispatchTurns callTool resp

/-- The transcript after one iteration of the single-dispatch step (YouTube
chat loop, and the single round-trip of the web-search variant): the
assistant turn then one result turn for the one dispatched block. -/
def singleToolStep (callTool : String → String → String) (b : ToolUseBlock)
    (content : List ContentBlock) (msgs : List Message) : List Message :=
  msgs ++ [assistantMsg content, toolResultMsg callTool b]

/-- The while-loop of tavily_mcp.py / opennutrition_mcp.py, entered with the
current response, the remaining scripted responses, and the transcript.
While the stop reason is tool_use: append the assistant turn, dispatch every
tool_use block appending one result turn each, then request the next model
turn.  Returns the transcript and the final (consumed) response, with the
emitted events. -/
def dispatchLoop (callTool : String → String → String) (resp : Response)
    (rest : List Response) (msgs : List Message) :
    Except RunError (List Message × Response) × List Event :=
  if resp.stop_reason = "tool_use" then
    let evs := toolCallEvents (toolUseBlocks resp.content)
    match rest with
    | [] => (Except.error RunError.modelError, evs)
    | r :: rs =>
      let next := dispatchLoop callTool r rs (dispatchStep callTool resp msgs)
      (next.1, evs ++ Event.modelCall :: next.2)
  else (Except.ok (msgs, resp), [])

/-- The while-True loop of GymmandoYouTubeMCP.chat: on a tool_use response
it extracts only the FIRST tool_use block via next(...) (StopIteration when
none), appends the assistant turn and one result turn, then requests the
next model turn; otherwise it returns the extracted final text. -/
def youtubeLoop (callTool : String → String → String) (resp : Response)
    (rest : List Response) (msgs : List Message) :
    Except RunError (String × List Message) × List Event :=
  if resp.stop_reason = "tool_use" then
    match toolUseBlocks resp.content with
    | [] => (Except.error RunError.stopIteration, [])
    | b :: _ =>
      match rest with
      | [] => (Except.error RunError.modelError, [Event.toolCall b.name b.input])
      | r :: rs =>
        let next := youtubeLoop callTool r rs (singleToolStep callTool b resp.content msgs)
        (next.1, Event.toolCall b.name b.input :: Event.modelCall :: next.2)
  else (Except.ok (extract_final_text resp.content, msgs), [])

/-- GymmandoYouTubeMCP.chat: validate both API keys (configuration error
before launch), then scoped-acquire the subprocess connection, run the
conversation loop, and release on every exit path. -/
def GymmandoYouTubeMCP.chat (anthropic_api_key youtube_api_key : Option String)
    (callTool : String → String → String) (responses : List Response)
    (user_message : String) :
    Except RunError (String × List Message) × List Event :=
  if truthy anthropic_api_key then
    if truthy youtube_api_key then
      match responses with
      | [] => (Except.error RunError.modelError, [Event.launch, Event.release])
      | r :: rs =>
        let body := youtubeLoop callTool r rs [⟨Role.user, MessageContent.plain user_message⟩]
        (body.1, Event.launch :: Event.modelCall :: body.2 ++ [Event.release])
    else (Except.error (RunError.configError "YOUTUBE_API_KEY is required"), [])
  else (Except.error (RunError.configError "ANTHROPIC_API_KEY is required"), [])

/-- Shared body of the Tavily and nutrition runs after their entry checks:
launch, initial model call, dispatch loop, sentinel extraction from the
final response, release on every exit path. -/
def mcpDispatchRun (callTool : String → String → String) (responses : List Response)
    (query : String) : Except RunError (String × List Message) × List Event :=
  match responses with
  | [] => (Except.error RunError.modelError, [Event.launch, Event.release])
  | r :: rs =>
    let body := dispatchLoop callTool r rs [⟨Role.user, MessageContent.plain query⟩]
    match body.1 with
    | Except.error e => (Except.error e, Event.launch :: Event.modelCall :: body.2 ++ [Event.release])
    | Except.ok (msgs, final) =>
      (Except.ok (extractTavilyText final.content, msgs),
       Event.launch :: Event.modelCall :: body.2 ++ [Event.release])

/-- GymandoTavilySearch.search_with_mcp: TAVILY_API_KEY must be truthy
(configuration error before launch), then the shared dispatch run. -/
def GymandoTavilySearch.search_with_mcp (environ : String → Option String)
    (callTool : String → String → String) (responses : List Response)
    (query : String) : Except RunError (String × List Message) × List Event :=
  if truthy (environ "TAVILY_API_KEY") then mcpDispatchRun callTool responses query
  else (Except.error (RunError.configError "TAVILY_API_KEY environment variable is required"), [])

/-- GymandoOpenNutrition.query_with_mcp: when OPENNUTRITION_MCP_PATH is set
and truthy, the target must exist (FileNotFoundError before launch);
otherwise the npx fallback is used; then the shared dispatch run. -/
def GymandoOpenNutrition.query_with_mcp (environ : String → Option String)
    (path_exists : String → Bool) (callTool : String → String → String)
    (responses : List Response) (query : String) :
    Except RunError (String × List Message) × List Event :=
  match environ "OPENNUTRITION_MCP_PATH" with
  | some p =>
    if p = "" then mcpDispatchRun callTool responses query
    else if path_exists p then mcpDispatchRun callTool responses query
    else (Except.error (RunError.fileNotFound ("OpenNutrition MCP not found at " ++ p)), [])
  | none => mcpDispatchRun callTool responses query

/-- GymandoSearch.search_with_mcp (open_search_mcp.py): no loop.  A single
if on the first response's stop reason: one dispatch of the first tool_use
block, one further model call whose stop reason is never re-checked, and
sentinel extraction of its first non-empty text; otherwise extract from the
first response directly. -/
def GymandoSearch.search_with_mcp (callTool : String → String → String)
    (responses : List Response) (query : String) :
    Except RunError (String × List Message) × List Event :=
  match responses with
  | [] => (Except.error RunError.modelError, [Event.launch, Event.release])
  | r :: rs =>
    if r.stop_reason = "tool_use" then
      match toolUseBlocks r.content with
      | [] => (Except.error RunError.stopIteration, [Event.launch, Event.modelCall, Event.release])
      | b :: _ =>
        match rs with
        | [] =>
          (Except.error RunError.modelError,
           [Event.launch, Event.modelCall, Event.toolCall b.name b.input, Event.release])
        | r2 :: _ =>
          (Except.ok (extractTavilyText r2.content,
             singleToolStep callTool b r.content [⟨Role.user, MessageContent.plain query⟩]),
           [Event.launch, Event.modelCall, Event.toolCall b.name b.input,
            Event.modelCall, Event.release])
    else
      (Except.ok (extractTavilyText r.content, [⟨Role.user, MessageContent.plain query⟩]),
       [Event.launch, Event.modelCall, Event.release])

/-- Dict update: the Python dict literal adds or overrides one key. -/
def envInsert (m : String → Option String) (kv : String × String) :
    String → Option String :=
  fun x => if x = kv.1 then some kv.2 else m x

/-- Left-to-right dict construction from a base map and explicit entries. -/
def envExtend (m : String → Option String) (kvs : List (String × String)) :
    String → Option String :=
  kvs.foldl envInsert m

/-- The silent-logging flags added by the Tavily, web-search and nutrition
variants. -/
def silentFlags : List (String × String) :=
  [("NODE_ENV", "production"), ("LOG_LEVEL", "silent"), ("SILENT", "1")]

/-- YouTube variant, _create_server_params: the env dict handed to the
subprocess holds only the YouTube API key (no inherited environment, no
silent-logging flags). -/
def youtubeServerEnv (youtube_api_key : String) : String → Option String :=
  envExtend (fun _ => none) [("YOUTUBE_API_KEY", youtube_api_key)]

/-- Tavily variant: inherited environment, then the Tavily key and the
silent-logging flags. -/
def tavilyServerEnv (environ : String → Option String) (tavily_api_key : String) :
    String → Option String :=
  envExtend environ (("TAVILY_API_KEY", tavily_api_key) :: silentFlags)

/-- Web-search variant: inherited environment plus the silent flags. -/
def searchServerEnv (environ : String → Option String) : String → Option String :=
  envExtend environ silentFlags

/-- Nutrition variant: inherited environment plus the silent flags. -/
def nutritionServerEnv (environ : String → Option String) : String → Option String :=
  envExtend environ silentFlags

/-- Event classifiers for counting. -/
def isLaunch : Event → Bool
  | Event.launch => true
  | _ => false

def isRelease : Event → Bool
  | Event.release => true
  | _ => false

def isModelCall : Event → Bool
  | Event.modelCall => true
  | _ => false

def isToolCallEv : Event → Bool
  | Event.toolCall _ _ => true
  | _ => false

/-- A transcript turn that is a user-role tool-result turn. -/
def isToolResultTurn (m : Message) : Bool :=
  match m with
  | ⟨Role.user, MessageContent.toolResults _⟩ => true
  | _ => false

/-- A tool-result turn carrying a result tagged with the given identifier. -/
def isToolResultTurnFor (id : String) (m : Message) : Bool :=
  match m with
  | ⟨Role.user, MessageContent.toolResults rs⟩ => rs.any fun r => r.tool_use_id == id
  | _ => false

/-- Number of tool-result turns in a transcript tagged with the given
identifier. -/
def countResultTurns (id : String) (msgs : List Message) : Nat :=
  msgs.countP (isToolResultTurnFor id)

/-- Identifiers of the tool-invocation-request blocks inside one turn. -/
def requestIdsOfMsg (m : Message) : List String :=
  match m with
  | ⟨Role.assistant, MessageContent.blocks bs⟩ => (toolUseBlocks bs).map ToolUseBlock.id
  | _ => []

/-- Identifiers of all tool-invocation-request blocks appended to a
transcript (inside assistant turns). -/
def requestIds (msgs : List Message) : List String :=
  (msgs.map requestIdsOfMsg).flatten

/-- Concrete scenario data. -/
def ct0 : String → String → String := fun _ _ => ""

def envTavily : String → Option String :=
  fun k => if k = "TAVILY_API_KEY" then some "tk" else none

def env0 : String → Option String := fun _ => none

def pathNo : String → Bool := fun _ => false

def pongResponse : Response := ⟨"end_turn", [ContentBlock.text "pong"]⟩

def lookupBlock : ToolUseBlock := ⟨"toolu_01", "lookup", "\x7b\"q\":\"x\"\x7d"⟩

def lookupResponse : Response := ⟨"tool_use", [ContentBlock.toolUse lookupBlock]⟩

def final42 : Response := ⟨"end_turn", [ContentBlock.text "42"]⟩

def ct42 : String → String → String :=
  fun n i =>
    if n = "lookup" ∧ i = "\x7b\"q\":\"x\"\x7d" then "\x7b\"value\":42\x7d" else ""

/-- The transcript at return time in the lookup scenario. -/
def lookupMsgs : List Message :=
  [⟨Role.user, MessageContent.plain "q"⟩,
   ⟨Role.assistant, MessageContent.blocks lookupResponse.content⟩,
   ⟨Role.user, MessageContent.toolResults [⟨"toolu_01", "\x7b\"value\":42\x7d"⟩]⟩]

/-- A single model response with two tool-invocation-request blocks. -/
def twoBlockResponse : Response :=
  ⟨"tool_use",
   [ContentBlock.toolUse ⟨"id1", "lookup", "a"⟩,
    ContentBlock.toolUse ⟨"id2", "lookup", "b"⟩]⟩

/-- The transcript the YouTube variant produces on the two-block scenario. -/
def twoBlockMsgs : List Message :=
  [⟨Role.user, MessageContent.plain "q"⟩,
   ⟨Role.assistant, MessageContent.blocks twoBlockResponse.content⟩,
   ⟨Role.user, MessageContent.toolResults [⟨"id1", ""⟩]⟩]

/-- A final response with no text block at all. -/
def noTextResponse : Response := ⟨"end_turn", []⟩

/-- Two single-block tool_use responses for the loop-versus-no-loop
contrast. -/
def toolResp1 : Response := ⟨"tool_use", [ContentBlock.toolUse ⟨"ida", "search", "x"⟩]⟩

def toolResp2 : Response := ⟨"tool_use", [ContentBlock.toolUse ⟨"idb", "search", "y"⟩]⟩

/-- One-step unfolding: a non-tool_use response ends the dispatch loop at
once with the transcript unchanged and no further events. -/
theorem dispatchLoop_nontool (callTool : String → String → String)
    (resp : Response) (rest : List Response) (msgs : List Message)
    (h : resp.stop_reason ≠ "tool_use") :
    dispatchLoop callTool resp rest msgs = (Except.ok (msgs, resp), []) := by
  rw [dispatchLoop.eq_def]
  simp [h]

/-- One-step unfolding: a tool_use response with the script exhausted
dispatches its blocks and then fails the next model call. -/
theorem dispatchLoop_tool_nil (callTool : String → String → String)
    (resp : Response) (msgs : List Message)
    (h : resp.stop_reason = "tool_use") :
    dispatchLoop callTool resp [] msgs
      = (Except.error RunError.modelError,
         toolCallEvents (toolUseBlocks resp.content)) := by
  rw [dispatchLoop.eq_def]
  simp [h]

/-- One-step unfolding: a tool_use response dispatches every block,
appends the assistant turn and one result turn per block, emits one
toolCall event per block, then requests the next model turn. -/
theorem dispatchLoop_tool_cons (callTool : String → String → String)
    (resp r : Response) (rs : List Response) (msgs : List Message)
    (h : resp.stop_reason = "tool_use") :
    dispatchLoop callTool resp (r :: rs) msgs
      = ((dispatchLoop callTool r rs (dispatchStep callTool resp msgs)).1,
         toolCallEvents (toolUseBlocks resp.content)
           ++ Event.modelCall
             :: (dispatchLoop callTool r rs (dispatchStep callTool resp msgs)).2) := by
  rw [dispatchLoop.eq_def]
  simp [h]

/-- One-step unfolding: a non-tool_use response ends the YouTube chat loop
with the extracted final text. -/
theorem youtubeLoop_nontool (callTool : String → String → String)
    (resp : Response) (rest : List Response) (msgs : List Message)
    (h : resp.stop_reason ≠ "tool_use") :
    youtubeLoop callTool resp rest msgs
      = (Except.ok (extract_final_text resp.content, msgs), []) := by
  rw [youtubeLoop.eq_def]
  simp [h]

/-- One-step unfolding: a tool_use response without a tool_use block makes
next() raise StopIteration. -/
theorem youtubeLoop_tool_noblock (callTool : String → String → String)
    (resp : Response) (rest : List Response) (msgs : List Message)
    (h : resp.stop_reason = "tool_use") (hb : toolUseBlocks resp.content = []) :
    youtubeLoop callTool resp rest msgs
      = (Except.error RunError.stopIteration, []) := by
  rw [youtubeLoop.eq_def]
  simp [h, hb]

/-- One-step unfolding: on a tool_use response the YouTube loop dispatches
only the FIRST tool_use block, appends the assistant turn and a single
result turn, and fails when the script is exhausted. -/
theorem youtubeLoop_tool_nil (callTool : String → String → String)
    (resp : Response) (msgs : List Message) (b : ToolUseBlock)
    (bs : List ToolUseBlock) (h : resp.stop_reason = "tool_use")
    (hb : toolUseBlocks resp.content = b :: bs) :
    youtubeLoop callTool resp [] msgs
      = (Except.error RunError.modelError, [Event.toolCall b.name b.input]) := by
  rw [youtubeLoop.eq_def]
  simp [h, hb]

/-- One-step unfolding: on a tool_use response the YouTube loop dispatches
only the FIRST tool_use block and re-enters with one appended result turn. -/
theorem youtubeLoop_tool_cons (callTool : String → String → String)
    (resp r : Response) (rs : List Response) (msgs : List Message)
    (b : ToolUseBlock) (bs : List ToolUseBlock)
    (h : resp.stop_reason = "tool_use")
    (hb : toolUseBlocks resp.content = b :: bs) :
    youtubeLoop callTool resp (r :: rs) msgs
      = ((youtubeLoop callTool r rs (singleToolStep callTool b resp.content msgs)).1,
         Event.toolCall b.name b.input
           :: Event.modelCall
             :: (youtubeLoop callTool r rs (singleToolStep callTool b resp.content msgs)).2) := by
  rw [youtubeLoop.eq_def]
  simp [h, hb]

/-- Events produced per dispatched block are toolCall events, so any
classifier false on toolCall events is false on all of them. -/
theorem toolCallEvents_pred_false (p : Event → Bool)
    (hp : ∀ n i, p (Event.toolCall n i) = false) (bs : List ToolUseBlock) :
    ∀ e ∈ toolCallEvents bs, p e = false := by
  intro e he
  simp [toolCallEvents] at he
  obtain ⟨b, _, rfl⟩ := he
  exact hp b.name b.input

/-- The Tavily/nutrition dispatch loop emits only modelCall and toolCall
events: any classifier false on both counts zero over its trace. -/
theorem dispatchLoop_countP_eq_zero (callTool : String → String → String)
    (p : Event → Bool) (hp1 : ∀ n i, p (Event.toolCall n i) = false)
    (hp2 : p Event.modelCall = false) :
    ∀ (rest : List Response) (resp : Response) (msgs : List Message),
      ((dispatchLoop callTool resp rest msgs).2).countP p = 0 := by
  intro rest
  induction rest with
  | nil =>
    intro resp msgs
    by_cases h : resp.stop_reason = "tool_use"
    · rw [dispatchLoop_tool_nil callTool resp msgs h]
      exact List.countP_eq_zero.mpr fun e he =>
        by simp [toolCallEvents_pred_false p hp1 _ e he]
    · rw [dispatchLoop_nontool callTool resp [] msgs h]
      rfl
  | cons r rs ih =>
    intro resp msgs
    by_cases h : resp.stop_reason = "tool_use"
    · rw [dispatchLoop_tool_cons callTool resp r rs msgs h]
      have hz : (toolCallEvents (toolUseBlocks resp.content)).countP p = 0 :=
        List.countP_eq_zero.mpr fun e he =>
          by simp [toolCallEvents_pred_false p hp1 _ e he]
      simp [List.countP_append, List.countP_cons, hp2, hz, ih]
    · rw [dispatchLoop_nontool callTool resp (r :: rs) msgs h]
      rfl

/-- The YouTube chat loop likewise emits only modelCall and toolCall
events. -/
theorem youtubeLoop_countP_eq_zero (callTool : String → String → String)
    (p : Event → Bool) (hp1 : ∀ n i, p (Event.toolCall n i) = false)
    (hp2 : p Event.modelCall = false) :
    ∀ (rest : List Response) (resp : Response) (msgs : List Message),
      ((youtubeLoop callTool resp rest msgs).2).countP p = 0 := by
  intro rest
  induction rest with
  | nil =>
    intro resp msgs
    by_cases h : resp.stop_reason = "tool_use"
    · cases hb : toolUseBlocks resp.content with
      | nil => rw [youtubeLoop_tool_noblock callTool resp [] msgs h hb]; rfl
      | cons b bs =>
        rw [youtubeLoop_tool_nil callTool resp msgs b bs h hb]
        simp [List.countP_cons, hp1]
    · rw [youtubeLoop_nontool callTool resp [] msgs h]; rfl
  | cons r rs ih =>
    intro resp msgs
    by_cases h : resp.stop_reason = "tool_use"
    · cases hb : toolUseBlocks resp.content with
      | nil => rw [youtubeLoop_tool_noblock callTool resp (r :: rs) msgs h hb]; rfl
      | cons b bs =>
        rw [youtubeLoop_tool_cons callTool resp r rs msgs b bs h hb]
        simp [List.countP_cons, hp1, hp2, ih]
    · rw [youtubeLoop_nontool callTool resp (r :: rs) msgs h]; rfl

/-- Each dispatched block's result message is a tool-result turn. -/
theorem countP_isToolResultTurn_map (ct : String → String → String) :
    ∀ bs : List ToolUseBlock,
      ((bs.map (toolResultMsg ct)).countP isToolResultTurn) = bs.length := by
  intro bs
  induction bs with
  | nil => rfl
  | cons b bs ih => simp [List.countP_cons, isToolResultTurn, toolResultMsg, ih]

/-- Counting result turns tagged with a given identifier over the dispatched
result messages counts the blocks carrying that identifier. -/
theorem countP_isToolResultTurnFor_map (ct : String → String → String) (id : String) :
    ∀ bs : List ToolUseBlock,
      ((bs.map (toolResultMsg ct)).countP (isToolResultTurnFor id))
        = bs.countP (fun b => b.id == id) := by
  intro bs
  induction bs with
  | nil => rfl
  | cons b bs ih =>
    simp [List.countP_cons, ih, isToolResultTurnFor, toolResultMsg]

/-- With pairwise-distinct identifiers, a block present in the list is
counted exactly once by its identifier. -/
theorem countP_id_eq_one_of_nodup :
    ∀ (bs : List ToolUseBlock) (b : ToolUseBlock),
      (bs.map ToolUseBlock.id).Nodup → b ∈ bs →
      bs.countP (fun x => x.id == b.id) = 1 := by
  intro bs
  induction bs with
  | nil => intro b _ hm; cases hm
  | cons a bs ih =>
    intro b hnd hm
    rw [List.map_cons, List.nodup_cons] at hnd
    rcases List.mem_cons.mp hm with h | h
    · subst h
      have hz : bs.countP (fun x => x.id == b.id) = 0 := by
        apply List.countP_eq_zero.mpr
        intro x hx hbeq
        exact hnd.1 (beq_iff_eq.mp hbeq ▸ List.mem_map_of_mem ToolUseBlock.id hx)
      simp [List.countP_cons, hz]
    · have hne : (a.id == b.id) = false := by
        apply beq_eq_false_iff_ne.mpr
        intro he
        exact hnd.1 (he ▸ List.mem_map_of_mem ToolUseBlock.id h)
      simp [List.countP_cons, hne, ih b hnd.2 h]

/-- Roles of the dispatched result messages: all user. -/
theorem map_role_toolResultMsg (ct : String → String → String) :
    ∀ bs : List ToolUseBlock,
      (bs.map (toolResultMsg ct)).map Message.role
        = List.replicate bs.length Role.user := by
  intro bs
  induction bs with
  | nil => rfl
  | cons b bs ih => simp [toolResultMsg, ih, List.replicate_succ]

/-- Extraction agrees with the spec-side first non-empty text, with the
variant-specific default when none exists. -/
theorem extract_eq_firstNonEmptyText :
    ∀ c : List ContentBlock,
      extract_final_text c = (firstNonEmptyText c).getD ""
      ∧ extractTavilyText c = (firstNonEmptyText c).getD "No text response found" := by
  intro c
  induction c with
  | nil => simp [extract_final_text, extractTavilyText, firstNonEmptyText]
  | cons b rest ih =>
    cases b with
    | text s =>
      by_cases hs : s = "" <;>
        simp only [extract_final_text, extractTavilyText, firstNonEmptyText,
          List.filterMap_cons, hs, if_true, if_false, ite_true, ite_false] <;>
        first
          | exact ih
          | simp [firstNonEmptyText] at ih ⊢
    | toolUse tb =>
      simpa only [extract_final_text, extractTavilyText, firstNonEmptyText,
        List.filterMap_cons] using ih

/-- Claim C3: a model response whose stop reason is not tool_use ends the
dispatch loop immediately (no further model turn, no tool call, transcript
unchanged), in both the Tavily/nutrition loop and the YouTube loop; in the
ping scenario (empty tool menu, model answers "pong" with a non-tool stop
reason) the YouTube and Tavily runs return "pong" after exactly one model
call and zero tool calls. -/
theorem nontool_response_terminates :
    (∀ (callTool : String → String → String) (resp : Response)
        (rest : List Response) (msgs : List Message),
        resp.stop_reason ≠ "tool_use" →
        dispatchLoop callTool resp rest msgs = (Except.ok (msgs, resp), []))
    ∧ (∀ (callTool : String → String → String) (resp : Response)
        (rest : List Response) (msgs : List Message),
        resp.stop_reason ≠ "tool_use" →
        youtubeLoop callTool resp rest msgs
          = (Except.ok (extract_final_text resp.content, msgs), []))
    ∧ GymmandoYouTubeMCP.chat (some "a") (some "y") ct0 [pongResponse] "ping"
        = (Except.ok ("pong", [⟨Role.user, MessageContent.plain "ping"⟩]),
           [Event.launch, Event.modelCall, Event.release])
    ∧ GymandoTavilySearch.search_with_mcp envTavily ct0 [pongResponse] "ping"
        = (Except.ok ("pong", [⟨Role.user, MessageContent.plain "ping"⟩]),
           [Event.launch, Event.modelCall, Event.release]) := by
  refine ⟨?_, ?_, rfl, rfl⟩
  · intro ct resp rest msgs h
    exact dispatchLoop_nontool ct resp rest msgs h
  · intro ct resp rest msgs h
    exact youtubeLoop_nontool ct resp rest msgs h

/-- Witness for C3 at a concrete non-tool response. -/
theorem nontool_response_terminates_witness :
    dispatchLoop ct0 pongResponse [] [] = (Except.ok ([], pongResponse), []) :=
  nontool_response_terminates.1 ct0 pongResponse [] [] (by decide)

/-- Claim C4: a missing required credential (or, for the nutrition variant,
a set but non-existing OPENNUTRITION_MCP_PATH target) raises a
configuration error before any subprocess is launched: the run returns the
error with an empty event trace, hence no launch and no subprocess side
effect. -/
theorem missing_credential_fails_before_launch :
    (∀ (ak yk : Option String) (ct : String → String → String)
        (rs : List Response) (m : String), truthy ak = false →
        GymmandoYouTubeMCP.chat ak yk ct rs m
          = (Except.error (RunError.configError "ANTHROPIC_API_KEY is required"), []))
    ∧ (∀ (ak yk : Option String) (ct : String → String → String)
        (rs : List Response) (m : String), truthy ak = true → truthy yk = false →
        GymmandoYouTubeMCP.chat ak yk ct rs m
          = (Except.error (RunError.configError "YOUTUBE_API_KEY is required"), []))
    ∧ (∀ (environ : String → Option String) (ct : String → String → String)
        (rs : List Response) (q : String), truthy (environ "TAVILY_API_KEY") = false →
        GymandoTavilySearch.search_with_mcp environ ct rs q
          = (Except.error
              (RunError.configError "TAVILY_API_KEY environment variable is required"), []))
    ∧ (∀ (environ : String → Option String) (pe : String → Bool)
        (ct : String → String → String) (rs : List Response) (q p : String),
        environ "OPENNUTRITION_MCP_PATH" = some p → p ≠ "" → pe p = false →
        GymandoOpenNutrition.query_with_mcp environ pe ct rs q
          = (Except.error
              (RunError.fileNotFound ("OpenNutrition MCP not found at " ++ p)), [])) := by
  refine ⟨?_, ?_, ?_, ?_⟩
  · intro ak yk ct rs m h
    simp [GymmandoYouTubeMCP.chat, h]
  · intro ak yk ct rs m h1 h2
    simp [GymmandoYouTubeMCP.chat, h1, h2]
  · intro environ ct rs q h
    simp [GymandoTavilySearch.search_with_mcp, h]
  · intro environ pe ct rs q p hp hne hpe
    simp [GymandoOpenNutrition.query_with_mcp, hp, hne, hpe]

/-- Witness for C4: absent ANTHROPIC_API_KEY fails with no events. -/
theorem missing_credential_fails_before_launch_witness :
    GymmandoYouTubeMCP.chat none (some "y") ct0 [] "m"
      = (Except.error (RunError.configError "ANTHROPIC_API_KEY is required"), []) :=
  missing_credential_fails_before_launch.1 none (some "y") ct0 [] "m" rfl

/-- Counterexample to C6: on a final response with no text block, the
Tavily run returns the sentinel "No text response found", not the empty
string. -/
theorem no_text_block_sentinel_cex :
    (GymandoTavilySearch.search_with_mcp envTavily ct0 [noTextResponse] "q").1
      = Except.ok ("No text response found", [⟨Role.user, MessageContent.plain "q"⟩])
    ∧ firstNonEmptyText noTextResponse.content = none
    ∧ "No text response found" ≠ "" :=
  ⟨rfl, rfl, by decide⟩

/-- Claim C6 (amended): on a final response, extraction returns the text of
the first text block whose text is non-empty (empty-text blocks are
skipped); when no such block exists, the YouTube variant returns the empty
string and the Tavily/nutrition/web-search variants return the sentinel
"No text response found"; both are total, never raising. -/
theorem final_text_extraction_amended :
    (∀ (c : List ContentBlock) (t : String), firstNonEmptyText c = some t →
        extract_final_text c = t ∧ extractTavilyText c = t)
    ∧ (∀ c : List ContentBlock, firstNonEmptyText c = none →
        extract_final_text c = "" ∧ extractTavilyText c = "No text response found") := by
  constructor
  · intro c t h
    have hc := extract_eq_firstNonEmptyText c
    rw [h] at hc
    simpa using hc
  · intro c h
    have hc := extract_eq_firstNonEmptyText c
    rw [h] at hc
    simpa using hc

/-- Witness for C6 (amended) at a single text block. -/
theorem final_text_extraction_amended_witness :
    extract_final_text [ContentBlock.text "pong"] = "pong"
    ∧ extractTavilyText [ContentBlock.text "pong"] = "pong" :=
  final_text_extraction_amended.1 [ContentBlock.text "pong"] "pong" (by decide)

/-- Counterexample to C7: in the lookup scenario the transcript at return
time has 3 turns, not 4 (the final model response is consumed, not
appended), while the run does return "42". -/
theorem lookup_scenario_three_turns_cex :
    (GymandoTavilySearch.search_with_mcp envTavily ct42 [lookupResponse, final42] "q").1
      = Except.ok ("42", lookupMsgs)
    ∧ lookupMsgs.length = 3
    ∧ lookupMsgs.length ≠ 4 :=
  ⟨rfl, rfl, by decide⟩

/-- Claim C7 (amended): in the lookup scenario (model requests tool lookup,
subprocess returns the value, second model turn answers "42" with a
non-tool stop reason), the transcript at return time contains exactly 3
turns with roles user, assistant-with-tool-request, user-with-tool-result,
the final model response is consumed without being appended, and the run
returns "42" after two model calls and one tool call. -/
theorem lookup_scenario_amended :
    GymandoTavilySearch.search_with_mcp envTavily ct42 [lookupResponse, final42] "q"
      = (Except.ok ("42", lookupMsgs),
         [Event.launch, Event.modelCall,
          Event.toolCall "lookup" "\x7b\"q\":\"x\"\x7d", Event.modelCall, Event.release])
    ∧ lookupMsgs.map Message.role = [Role.user, Role.assistant, Role.user]
    ∧ lookupMsgs.length = 3 :=
  ⟨rfl, rfl, rfl⟩

/-- Counterexample to C8: the YouTube variant's subprocess environment map
carries none of the silent-logging flags and no inherited entries; it holds
only the YouTube credential. -/
theorem youtube_env_no_silent_flags_cex :
    youtubeServerEnv "yk" "NODE_ENV" = none
    ∧ youtubeServerEnv "yk" "LOG_LEVEL" = none
    ∧ youtubeServerEnv "yk" "SILENT" = none
    ∧ youtubeServerEnv "yk" "PATH" = none
    ∧ youtubeServerEnv "yk" "YOUTUBE_API_KEY" = some "yk"
    ∧ some "production" ≠ (none : Option String) := by
  refine ⟨by decide, by decide, by decide, by decide, by decide, by decide⟩

/-- Claim C8 (amended): the Tavily, web-search and nutrition variants pass
the inherited process environment overridden with the silent-logging flags
NODE_ENV=production, LOG_LEVEL=silent, SILENT=1 (plus the Tavily
credential); the YouTube variant instead passes an environment holding only
YOUTUBE_API_KEY, with no inherited entries and no silent flags. -/
theorem subprocess_env_amended :
    (∀ (environ : String → Option String) (key x : String),
        x ≠ "TAVILY_API_KEY" → x ≠ "NODE_ENV" → x ≠ "LOG_LEVEL" → x ≠ "SILENT" →
        tavilyServerEnv environ key x = environ x)
    ∧ (∀ (environ : String → Option String) (key : String),
        tavilyServerEnv environ key "TAVILY_API_KEY" = some key
        ∧ tavilyServerEnv environ key "NODE_ENV" = some "production"
        ∧ tavilyServerEnv environ key "LOG_LEVEL" = some "silent"
        ∧ tavilyServerEnv environ key "SILENT" = some "1")
    ∧ (∀ (environ : String → Option String) (x : String),
        x ≠ "NODE_ENV" → x ≠ "LOG_LEVEL" → x ≠ "SILENT" →
        searchServerEnv environ x = environ x ∧ nutritionServerEnv environ x = environ x)
    ∧ (∀ environ : String → Option String,
        searchServerEnv environ "NODE_ENV" = some "production"
        ∧ searchServerEnv environ "LOG_LEVEL" = some "silent"
        ∧ searchServerEnv environ "SILENT" = some "1"
        ∧ nutritionServerEnv environ "NODE_ENV" = some "production"
        ∧ nutritionServerEnv environ "LOG_LEVEL" = some "silent"
        ∧ nutritionServerEnv environ "SILENT" = some "1")
    ∧ (∀ key x : String, x ≠ "YOUTUBE_API_KEY" → youtubeServerEnv key x = none)
    ∧ (∀ key : String, youtubeServerEnv key "YOUTUBE_API_KEY" = some key) := by
  refine ⟨?_, ?_, ?_, ?_, ?_, ?_⟩
  · intro environ key x h1 h2 h3 h4
    simp [tavilyServerEnv, envExtend, silentFlags, envInsert, h1, h2, h3, h4]
  · intro environ key
    refine ⟨?_, ?_, ?_, ?_⟩ <;> simp [tavilyServerEnv, envExtend, silentFlags, envInsert]
  · intro environ x h1 h2 h3
    constructor <;>
      simp [searchServerEnv, nutritionServerEnv, envExtend, silentFlags, envInsert, h1, h2, h3]
  · intro environ
    refine ⟨?_, ?_, ?_, ?_, ?_, ?_⟩ <;>
      simp [searchServerEnv, nutritionServerEnv, envExtend, silentFlags, envInsert]
  · intro key x h
    simp [youtubeServerEnv, envExtend, envInsert, h]
  · intro key
    simp [youtubeServerEnv, envExtend, envInsert]

/-- Witness for C8 (amended): inheritance and the YouTube-only map at a
concrete key. -/
theorem subprocess_env_amended_witness :
    tavilyServerEnv env0 "tk" "PATH" = env0 "PATH"
    ∧ youtubeServerEnv "yk" "PATH" = none :=
  ⟨subprocess_env_amended.1 env0 "tk" "PATH" (by decide) (by decide) (by decide) (by decide),
   subprocess_env_amended.2.2.2.2.1 "yk" "PATH" (by decide)⟩

/-- Counterexample to C1: on a tool_use response holding two
tool-invocation-request blocks, the YouTube chat dispatches only one
(a single toolCall event, a single result turn for id1) although the
response contains two request blocks. -/
theorem youtube_multi_tool_dispatch_cex :
    GymmandoYouTubeMCP.chat (some "a") (some "y") ct0 [twoBlockResponse, final42] "q"
      = (Except.ok ("42", twoBlockMsgs),
         [Event.launch, Event.modelCall, Event.toolCall "lookup" "a",
          Event.modelCall, Event.release])
    ∧ (toolUseBlocks twoBlockResponse.content).length = 2
    ∧ ([Event.launch, Event.modelCall, Event.toolCall "lookup" "a",
        Event.modelCall, Event.release].countP isToolCallEv) = 1 :=
  ⟨rfl, rfl, by decide⟩

/-- Claim C1 (amended): the Tavily and OpenNutrition dispatch loops
dispatch every tool-invocation-request block of a tool_use response to the
subprocess (one toolCall event per block, all before the next model call)
and append one user-role result turn per block; the YouTube chat loop
instead dispatches only the first tool_use block of each tool_use response,
appending exactly one result turn for it before the next model call. -/
theorem dispatch_every_block_amended :
    (∀ (ct : String → String → String) (resp r : Response) (rs : List Response)
        (msgs : List Message), resp.stop_reason = "tool_use" →
        dispatchLoop ct resp (r :: rs) msgs
          = ((dispatchLoop ct r rs (dispatchStep ct resp msgs)).1,
             toolCallEvents (toolUseBlocks resp.content)
               ++ Event.modelCall
                 :: (dispatchLoop ct r rs (dispatchStep ct resp msgs)).2)
        ∧ (dispatchTurns ct resp).countP isToolResultTurn
            = (toolUseBlocks resp.content).length
        ∧ (toolCallEvents (toolUseBlocks resp.content)).length
            = (toolUseBlocks resp.content).length)
    ∧ (∀ (ct : String → String → String) (resp r : Response) (rs : List Response)
        (msgs : List Message) (b : ToolUseBlock) (bs : List ToolUseBlock),
        resp.stop_reason = "tool_use" →
        toolUseBlocks resp.content = b :: bs →
        youtubeLoop ct resp (r :: rs) msgs
          = ((youtubeLoop ct r rs (singleToolStep ct b resp.content msgs)).1,
             Event.toolCall b.name b.input
               :: Event.modelCall
                 :: (youtubeLoop ct r rs (singleToolStep ct b resp.content msgs)).2)
        ∧ (singleToolStep ct b resp.content msgs).countP isToolResultTurn
            = msgs.countP isToolResultTurn + 1) := by
  constructor
  · intro ct resp r rs msgs h
    refine ⟨dispatchLoop_tool_cons ct resp r rs msgs h, ?_, ?_⟩
    · simp [dispatchTurns, List.countP_cons, isToolResultTurn, assistantMsg,
        countP_isToolResultTurn_map ct]
    · simp [toolCallEvents]
  · intro ct resp r rs msgs b bs h hb
    refine ⟨youtubeLoop_tool_cons ct resp r rs msgs b bs h hb, ?_⟩
    simp [singleToolStep, List.countP_append, List.countP_cons,
      isToolResultTurn, toolResultMsg, assistantMsg]

/-- Witness for C1 (amended): the loop on the lookup scenario appends one
result turn for its one request block. -/
theorem dispatch_every_block_amended_witness :
    (dispatchTurns ct0 lookupResponse).countP isToolResultTurn
      = (toolUseBlocks lookupResponse.content).length :=
  (dispatch_every_block_amended.1 ct0 lookupResponse final42 [] [] rfl).2.1

/-- Counterexample to C2: in the two-block scenario the YouTube transcript
contains an appended tool-invocation-request block with id "id2" and zero
matching tool-result turns. -/
theorem youtube_unmatched_request_cex :
    (GymmandoYouTubeMCP.chat (some "a") (some "y") ct0 [twoBlockResponse, final42] "q").1
      = Except.ok ("42", twoBlockMsgs)
    ∧ "id2" ∈ requestIds twoBlockMsgs
    ∧ countResultTurns "id2" twoBlockMsgs = 0 :=
  ⟨rfl, by decide, by decide⟩

/-- Claim C2 (amended): in the Tavily/nutrition dispatch loop, for a
tool_use response whose request-block identifiers are pairwise distinct,
every request block appended with the assistant turn is matched by exactly
one tool-result turn carrying its identifier among the turns appended
before the next model turn, and the number of appended result turns equals
the number of request blocks; the YouTube variant guarantees this only for
the first block of each response. -/
theorem result_matches_request_amended :
    ∀ (ct : String → String → String) (resp : Response) (b : ToolUseBlock),
      resp.stop_reason = "tool_use" →
      ((toolUseBlocks resp.content).map ToolUseBlock.id).Nodup →
      b ∈ toolUseBlocks resp.content →
      countResultTurns b.id (dispatchTurns ct resp) = 1
      ∧ (dispatchTurns ct resp).countP isToolResultTurn
          = (toolUseBlocks resp.content).length := by
  intro ct resp b _ hnd hm
  constructor
  · rw [countResultTurns, dispatchTurns]
    rw [List.countP_cons]
    have ha : isToolResultTurnFor b.id (assistantMsg resp.content) = false := rfl
    rw [ha, if_neg (by simp), Nat.add_zero]
    rw [countP_isToolResultTurnFor_map ct b.id]
    exact countP_id_eq_one_of_nodup (toolUseBlocks resp.content) b hnd hm
  · simp [dispatchTurns, List.countP_cons, isToolResultTurn, assistantMsg,
      countP_isToolResultTurn_map ct]

/-- Witness for C2 (amended) on the lookup scenario. -/
theorem result_matches_request_amended_witness :
    countResultTurns lookupBlock.id (dispatchTurns ct0 lookupResponse) = 1 :=
  (result_matches_request_amended ct0 lookupResponse lookupBlock rfl
    (by decide) (by decide)).1

/-- Claim C10: when a single assistant turn carries n tool-invocation-
request blocks, the Tavily/nutrition loop appends the n results as n
separate consecutive user-role turns, each holding exactly one tool_result
block tagged with its request's identifier, never as one combined user
turn; the role sequence appended is assistant followed by n user turns. -/
theorem separate_result_turns :
    ∀ (ct : String → String → String) (resp : Response) (msgs : List Message),
      resp.stop_reason = "tool_use" →
      dispatchStep ct resp msgs = msgs ++ dispatchTurns ct resp
      ∧ (dispatchTurns ct resp).map Message.role
          = Role.assistant
              :: List.replicate (toolUseBlocks resp.content).length Role.user
      ∧ (∀ b ∈ toolUseBlocks resp.content,
          (toolResultMsg ct b).role = Role.user
          ∧ (toolResultMsg ct b).content
              = MessageContent.toolResults [⟨b.id, ct b.name b.input⟩]) := by
  intro ct resp msgs _
  refine ⟨rfl, ?_, ?_⟩
  · simp [dispatchTurns, assistantMsg, map_role_toolResultMsg ct]
  · intro b _
    exact ⟨rfl, rfl⟩

/-- Witness for C10 on the lookup scenario. -/
theorem separate_result_turns_witness :
    (dispatchTurns ct0 lookupResponse).map Message.role
      = Role.assistant
          :: List.replicate (toolUseBlocks lookupResponse.content).length Role.user :=
  (separate_result_turns ct0 lookupResponse [] rfl).2.1

/-- Helper: appending a final element fixes getLast?. -/
theorem getLast?_append_single {α : Type} (l : List α) (a : α) :
    (l ++ [a]).getLast? = some a := by
  simp

/-- Helper: getLast? through a leading cons of an append with a final
element. -/
theorem getLast?_cons_append_single {α : Type} (x : α) (l : List α) (a : α) :
    (x :: (l ++ [a])).getLast? = some a := by
  rw [← List.cons_append]
  exact getLast?_append_single (x :: l) a

/-- Claim C5: on every exit path of a run (normal return, tool error, model
error after acquisition, or pre-launch configuration error), the subprocess
connection release count equals the launch count and is at most one; when
the entry validation passes, the connection is launched exactly once and
released exactly once, with the release as the final event, so the
subprocess never outlives the call. -/
theorem scoped_release_exactly_once :
    (∀ (ak yk : Option String) (ct : String → String → String)
        (rs : List Response) (m : String),
        ((GymmandoYouTubeMCP.chat ak yk ct rs m).2.countP isRelease
          = (GymmandoYouTubeMCP.chat ak yk ct rs m).2.countP isLaunch)
        ∧ (GymmandoYouTubeMCP.chat ak yk ct rs m).2.countP isLaunch ≤ 1
        ∧ (truthy ak = true → truthy yk = true →
            (GymmandoYouTubeMCP.chat ak yk ct rs m).2.countP isLaunch = 1
            ∧ (GymmandoYouTubeMCP.chat ak yk ct rs m).2.countP isRelease = 1
            ∧ (GymmandoYouTubeMCP.chat ak yk ct rs m).2.getLast? = some Event.release))
    ∧ (∀ (environ : String → Option String) (ct : String → String → String)
        (rs : List Response) (q : String),
        ((GymandoTavilySearch.search_with_mcp environ ct rs q).2.countP isRelease
          = (GymandoTavilySearch.search_with_mcp environ ct rs q).2.countP isLaunch)
        ∧ (GymandoTavilySearch.search_with_mcp environ ct rs q).2.countP isLaunch ≤ 1
        ∧ (truthy (environ "TAVILY_API_KEY") = true →
            (GymandoTavilySearch.search_with_mcp environ ct rs q).2.countP isLaunch = 1
            ∧ (GymandoTavilySearch.search_with_mcp environ ct rs q).2.countP isRelease = 1
            ∧ (GymandoTavilySearch.search_with_mcp environ ct rs q).2.getLast?
                = some Event.release)) := by
  constructor
  · intro ak yk ct rs m
    by_cases hak : truthy ak = true
    · by_cases hyk : truthy yk = true
      · cases rs with
        | nil =>
          refine ⟨?_, ?_, fun _ _ => ⟨?_, ?_, ?_⟩⟩ <;>
            simp [GymmandoYouTubeMCP.chat, hak, hyk, List.countP_cons,
              isLaunch, isRelease]
        | cons r rs' =>
          have hL := youtubeLoop_countP_eq_zero ct isLaunch (fun _ _ => rfl) rfl
            rs' r [⟨Role.user, MessageContent.plain m⟩]
          have hR := youtubeLoop_countP_eq_zero ct isRelease (fun _ _ => rfl) rfl
            rs' r [⟨Role.user, MessageContent.plain m⟩]
          refine ⟨?_, ?_, fun _ _ => ⟨?_, ?_, ?_⟩⟩ <;>
            simp [GymmandoYouTubeMCP.chat, hak, hyk, List.countP_append,
              List.countP_cons, isLaunch, isRelease, hL, hR,
              getLast?_append_single, getLast?_cons_append_single]
      · have hyk' : truthy yk = false := by
          revert hyk; cases truthy yk <;> simp
        refine ⟨?_, ?_, fun _ h => absurd h (by simp [hyk'])⟩ <;>
          simp [GymmandoYouTubeMCP.chat, hak, hyk']
    · have hak' : truthy ak = false := by
        revert hak; cases truthy ak <;> simp
      refine ⟨?_, ?_, fun h _ => absurd h (by simp [hak'])⟩ <;>
        simp [GymmandoYouTubeMCP.chat, hak']
  · intro environ ct rs q
    by_cases hk : truthy (environ "TAVILY_API_KEY") = true
    · cases rs with
      | nil =>
        refine ⟨?_, ?_, fun _ => ⟨?_, ?_, ?_⟩⟩ <;>
          simp [GymandoTavilySearch.search_with_mcp, mcpDispatchRun, hk,
            List.countP_cons, isLaunch, isRelease]
      | cons r rs' =>
        have hL := dispatchLoop_countP_eq_zero ct isLaunch (fun _ _ => rfl) rfl
          rs' r [⟨Role.user, MessageContent.plain q⟩]
        have hR := dispatchLoop_countP_eq_zero ct isRelease (fun _ _ => rfl) rfl
          rs' r [⟨Role.user, MessageContent.plain q⟩]
        cases hb : (dispatchLoop ct r rs' [⟨Role.user, MessageContent.plain q⟩]).1 with
        | error e =>
          refine ⟨?_, ?_, fun _ => ⟨?_, ?_, ?_⟩⟩ <;>
            simp [GymandoTavilySearch.search_with_mcp, mcpDispatchRun, hk, hb,
              List.countP_append, List.countP_cons, isLaunch, isRelease,
              hL, hR, getLast?_append_single, getLast?_cons_append_single]
        | ok v =>
          obtain ⟨msgs, final⟩ := v
          refine ⟨?_, ?_, fun _ => ⟨?_, ?_, ?_⟩⟩ <;>
            simp [GymandoTavilySearch.search_with_mcp, mcpDispatchRun, hk, hb,
              List.countP_append, List.countP_cons, isLaunch, isRelease,
              hL, hR, getLast?_append_single, getLast?_cons_append_single]
    · have hk' : truthy (environ "TAVILY_API_KEY") = false := by
        revert hk; cases truthy (environ "TAVILY_API_KEY") <;> simp
      refine ⟨?_, ?_, fun h => absurd h (by simp [hk'])⟩ <;>
        simp [GymandoTavilySearch.search_with_mcp, hk']

/-- Witness for C5: the validated YouTube run on an exhausted model script
launches once and releases once, the release last. -/
theorem scoped_release_exactly_once_witness :
    (GymmandoYouTubeMCP.chat (some "a") (some "y") ct0 [] "m").2.countP isLaunch = 1
    ∧ (GymmandoYouTubeMCP.chat (some "a") (some "y") ct0 [] "m").2.countP isRelease = 1
    ∧ (GymmandoYouTubeMCP.chat (some "a") (some "y") ct0 [] "m").2.getLast?
        = some Event.release :=
  (scoped_release_exactly_once.1 (some "a") (some "y") ct0 [] "m").2.2
    (by decide) (by decide)

/-- Claim C9: the web-search variant issues at most two model turns and at
most one tool round-trip by construction; after its single dispatch it
returns the second response's first non-empty text without re-checking that
response's stop reason (even when it is tool_use); the Tavily and nutrition
variants instead re-enter the dispatch loop while the stop reason remains
tool_use, shown by a two-tool script on which they issue three model calls
where the web-search variant issues two. -/
theorem search_single_roundtrip :
    (∀ (ct : String → String → String) (rs : List Response) (q : String),
        (GymandoSearch.search_with_mcp ct rs q).2.countP isModelCall ≤ 2
        ∧ (GymandoSearch.search_with_mcp ct rs q).2.countP isToolCallEv ≤ 1)
    ∧ (∀ (ct : String → String → String) (q : String) (r1 r2 : Response)
        (rest : List Response) (b : ToolUseBlock) (bs : List ToolUseBlock),
        r1.stop_reason = "tool_use" →
        toolUseBlocks r1.content = b :: bs →
        r2.stop_reason = "tool_use" →
        (GymandoSearch.search_with_mcp ct (r1 :: r2 :: rest) q).1
          = Except.ok (extractTavilyText r2.content,
              singleToolStep ct b r1.content [⟨Role.user, MessageContent.plain q⟩]))
    ∧ ((GymandoTavilySearch.search_with_mcp envTavily ct0
          [toolResp1, toolResp2, final42] "q").2.countP isModelCall = 3)
    ∧ ((GymandoOpenNutrition.query_with_mcp env0 pathNo ct0
          [toolResp1, toolResp2, final42] "q").2.countP isModelCall = 3)
    ∧ ((GymandoSearch.search_with_mcp ct0
          [toolResp1, toolResp2, final42] "q").2.countP isModelCall = 2) := by
  refine ⟨?_, ?_, by decide, by decide, by decide⟩
  · intro ct rs q
    cases rs with
    | nil =>
      constructor <;>
        simp [GymandoSearch.search_with_mcp, List.countP_cons, isModelCall, isToolCallEv]
    | cons r rs' =>
      by_cases h : r.stop_reason = "tool_use"
      · cases hb : toolUseBlocks r.content with
        | nil =>
          constructor <;>
            simp [GymandoSearch.search_with_mcp, h, hb, List.countP_cons,
              isModelCall, isToolCallEv]
        | cons b bs =>
          cases rs' with
          | nil =>
            constructor <;>
              simp [GymandoSearch.search_with_mcp, h, hb, List.countP_cons,
                isModelCall, isToolCallEv]
          | cons r2 rs'' =>
            constructor <;>
              simp [GymandoSearch.search_with_mcp, h, hb, List.countP_cons,
                isModelCall, isToolCallEv]
      · constructor <;>
          simp [GymandoSearch.search_with_mcp, h, List.countP_cons,
            isModelCall, isToolCallEv]
  · intro ct q r1 r2 rest b bs h1 hb _
    simp [GymandoSearch.search_with_mcp, h1, hb]

/-- Witness for C9: the no-recheck behavior at a concrete script whose
second response still requests a tool. -/
theorem search_single_roundtrip_witness :
    (GymandoSearch.search_with_mcp ct0 [toolResp1, toolResp2] "q").1
      = Except.ok (extractTavilyText toolResp2.content,
          singleToolStep ct0 ⟨"ida", "search", "x"⟩ toolResp1.content
            [⟨Role.user, MessageContent.plain "q"⟩]) :=
  search_single_roundtrip.2.1 ct0 "q" toolResp1 toolResp2 []
    ⟨"ida", "search", "x"⟩ [] rfl rfl rfl

end Gymmando
